import Mathlib

/-!
Shallow embedding of the pgmac workspace controller (TypeScript/React/Tauri):
the identifier-quoting rule, the edit/delete SQL builder, the connection
registry, the tab store and the startup session reconciler, translated from
the source files, together with theorems settling the spec claims.

Conventions of the embedding:
* JS `null`/`undefined` string fields become `Option String`; a JS truthiness
  test on such an id becomes `Option.isSome` (ids are non-empty strings).
* Async gateway calls become explicit `Except String _` results passed in as
  parameters, so each code path (resolve / reject) is a value of the model.
* JS row values (`any`) become the `JsValue` type below; numbers are modelled
  as integers (no claim touches float formatting), objects carry their
  `JSON.stringify` serialization.
* `executionDurationMs` (a wall-clock float) is not modelled; no claim
  touches it.
-/

namespace Pgmac

/-- The single-quote character, kept as a named constant so SQL-literal
building is explicit about it. -/
def singleQuote : Char := Char.ofNat 39

def sq : String := String.singleton singleQuote

/-- JS `toLowerCase` on an ASCII character (the identifiers and reserved
words involved are ASCII). Structural so that proofs can evaluate it. -/
def jsCharToLower (c : Char) : Char :=
  if Char.ofNat 65 ≤ c ∧ c ≤ Char.ofNat 90 then Char.ofNat (c.toNat + 32) else c

/-- JS `name.toLowerCase()`. -/
def jsToLower (s : String) : String := String.mk (s.data.map jsCharToLower)

/-- JS `s.startsWith(p)`. -/
def jsStartsWith (s p : String) : Bool := p.data.isPrefixOf s.data

/-- JS `String.prototype.split` on a single-character separator, on the
character list. -/
def splitChars (sep : Char) : List Char → List (List Char)
  | [] => [[]]
  | c :: rest =>
    let r := splitChars sep rest
    if c = sep then [] :: r
    else
      match r with
      | [] => [[c]]
      | g :: gs => (c :: g) :: gs

/-- JS `s.split(".")`. -/
def jsSplitDot (s : String) : List String :=
  (splitChars (Char.ofNat 46) s.data).map String.mk

/-! ## Identifier quoting (src/unnamed/part_000, `maybeQuoteIdentifier`) -/

/-- The reserved-word list from `maybeQuoteIdentifier`. -/
def reservedWords : List String :=
  ["select", "from", "where", "table", "order", "group", "by", "limit",
   "offset", "insert", "update", "delete", "create", "alter", "drop",
   "grant", "revoke", "all", "distinct", "as", "join", "on", "inner",
   "outer", "left", "right", "full", "union", "except", "intersect", "user"]

/-- Source `/[A-Z]/.test(name)` — has an (ASCII) capital letter. -/
def hasCaps (name : String) : Bool :=
  name.data.any fun c => decide (Char.ofNat 65 ≤ c ∧ c ≤ Char.ofNat 90)

/-- Source `/[^a-z0-9_]/.test(name)` — has a character outside `[a-z0-9_]`. -/
def hasSpecialChars (name : String) : Bool :=
  name.data.any fun c =>
    !(decide (Char.ofNat 97 ≤ c ∧ c ≤ Char.ofNat 122)
      || decide (Char.ofNat 48 ≤ c ∧ c ≤ Char.ofNat 57)
      || c = Char.ofNat 95)

/-- Source `/^[0-9]/.test(name)` — starts with a digit. -/
def startsWithDigit (name : String) : Bool :=
  match name.data with
  | [] => false
  | c :: _ => decide (Char.ofNat 48 ≤ c ∧ c ≤ Char.ofNat 57)

/-- The `needsQuotes` condition of `maybeQuoteIdentifier`:
caps, special chars, leading digit, or `list.includes(name.toLowerCase())`. -/
def needsQuotes (name : String) : Bool :=
  hasCaps name || hasSpecialChars name || startsWithDigit name
    || decide (jsToLower name ∈ reservedWords)

/-- Source `maybeQuoteIdentifier` from src/unnamed/part_000: wrap in double quotes
when `needsQuotes`, else return the name unchanged. -/
def maybeQuoteIdentifier (name : String) : String :=
  if needsQuotes name then "\"" ++ name ++ "\"" else name

/-! ## Data model (src/unnamed/part_003 and src/store/useAppStore.ts) -/

/-- Source `ColumnDefinition` — `{name, data_type, is_pk, is_unique}`
(`enum_values` carries no behaviour in the modelled code paths). -/
structure ColumnDefinition where
  name : String
  data_type : String
  is_pk : Bool
  is_unique : Bool
  deriving Repr, DecidableEq

/-- A JS runtime value as the delete/update builders inspect it with
`typeof`: null, number (integral), boolean, object (already
`JSON.stringify`-ed), or anything else via `String(val)`. -/
inductive JsValue where
  | vnull : JsValue
  | vnum : Int → JsValue
  | vbool : Bool → JsValue
  | vobj : String → JsValue
  | vstr : String → JsValue
  deriving Repr, DecidableEq

/-- Source `QueryResult` — only `columns` and `rows` are consumed by the modelled
paths (`affected_rows`/`query_type` are display-only). -/
structure QueryResult where
  columns : List String
  rows : List (List JsValue)
  deriving Repr, DecidableEq

/-- Source `WorkspaceTab` (src/unnamed/part_003). -/
structure WorkspaceTab where
  id : String
  connectionId : Option String
  savedConnectionId : Option String
  title : String
  sql : String
  results : Option QueryResult
  error : Option String
  isLoading : Bool
  selectedTable : Option String
  dbName : Option String
  columnDefs : List ColumnDefinition
  deriving Repr, DecidableEq

/-- A persisted tab inside the `Session` snapshot. -/
structure SessionTab where
  id : String
  title : String
  sql : String
  connection_id : Option String
  saved_connection_id : Option String
  db_name : Option String
  deriving Repr, DecidableEq

/-- The persisted `Session` snapshot (`session.tabs || []` is modelled by a
plain list, the absent case being `[]`). -/
structure Session where
  last_connection_id : Option String
  last_saved_connection_id : Option String
  last_table : Option String
  last_query : Option String
  tabs : List SessionTab
  active_tab_id : Option String
  deriving Repr, DecidableEq

/-- Source `DbConfig`. -/
structure DbConfig where
  host : String
  port : Nat
  user : String
  dbname : String
  deriving Repr, DecidableEq

/-- Source `SavedConnection` — durable connection identity. -/
structure SavedConnection where
  id : String
  name : String
  config : DbConfig
  deriving Repr, DecidableEq

/-- Source `SchemaNode` of the connection registry. -/
structure SchemaNode where
  name : String
  tables : Option (List String)
  isOpen : Bool
  deriving Repr, DecidableEq

/-- Source `ConnectionNode` of the connection registry. -/
structure ConnectionNode where
  data : SavedConnection
  isOpen : Bool
  liveConnectionId : Option String
  schemas : Option (List SchemaNode)
  isLoading : Bool
  deriving Repr, DecidableEq

/-! ## Connection Registry (src/store/useAppStore.ts, `loadConnections`) -/

/-- The merge inside `loadConnections`: for each saved identity keep the
existing node state (updating `data`) when the id is already present,
otherwise initialize a fresh closed node. `currentMap` is a JS `Map` built
from the node list, so for duplicate ids the LAST node wins — hence the
lookup on the reversed list. -/
def mergeConnections (current : List ConnectionNode) (saved : List SavedConnection) :
    List ConnectionNode :=
  saved.map fun s =>
    match current.reverse.find? (fun c => c.data.id == s.id) with
    | some existing => { existing with data := s }
    | none =>
      { data := s, isOpen := false, liveConnectionId := none,
        schemas := none, isLoading := false }

/-- Source `loadConnections`: awaits `load_connections` and merges; the `catch`
only logs, leaving the state untouched, and the async function itself
resolves normally (the model is a total function — no error escapes). -/
def loadConnections (state : List ConnectionNode)
    (fetch : Except String (List SavedConnection)) : List ConnectionNode :=
  match fetch with
  | .ok saved => mergeConnections state saved
  | .error _ => state

/-! ## Edit/Delete SQL builder (src/unnamed/part_001) -/

/-- Source `String(val).replace(/'/g, "''")` — double every single quote. -/
def escapeQuotes (s : String) : String :=
  String.join (s.data.map fun c => if c = singleQuote then sq ++ sq else String.singleton c)

/-- The value-literal rule of `handleDeleteRow` for a non-null value:
numbers and booleans via `String(val)` unquoted, objects JSON-serialized and
single-quoted (source does not escape quotes inside the JSON), anything else
single-quoted with quote doubling. -/
def deleteValueLiteral : JsValue → String
  | .vnull => "NULL"
  | .vnum n => toString n
  | .vbool b => if b then "true" else "false"
  | .vobj j => sq ++ j ++ sq
  | .vstr s => sq ++ escapeQuotes s ++ sq

/-- Identifying-column resolution of `handleDeleteRow`: primary-key columns,
else unique columns (possibly empty). -/
def deleteKeyCols (columnDefs : List ColumnDefinition) : List ColumnDefinition :=
  let pkCols := columnDefs.filter (·.is_pk)
  if pkCols.isEmpty then columnDefs.filter (·.is_unique) else pkCols

/-- Identifying-column resolution of `handleUpdateCell`: the `Set` of
primary-key column names, else unique column names (JS `Set` membership is
list membership; only emptiness and membership are consumed). -/
def updateKeyNames (columnDefs : List ColumnDefinition) : List String :=
  let pkColNames := (columnDefs.filter (·.is_pk)).map (·.name)
  if pkColNames.isEmpty then (columnDefs.filter (·.is_unique)).map (·.name)
  else pkColNames

/-- Source `handleUpdateCell`: `filteredIdentifiers` — restrict the row identifiers
to key columns when keys exist, else keep all columns. `rowIdentifiers` are
`(colName, stringValue, dataType)` triples built from the whole row. -/
def filteredIdentifiers (columnDefs : List ColumnDefinition)
    (rowIdentifiers : List (String × Option String × String)) :
    List (String × Option String × String) :=
  let keyNames := updateKeyNames columnDefs
  if keyNames.isEmpty then rowIdentifiers
  else rowIdentifiers.filter fun ri => keyNames.contains ri.1

/-- The observable outcome of `handleDeleteRow`. -/
inductive DeleteRowOutcome where
  /-- Early return: no selected table or no results. -/
  | noTableOrResults : DeleteRowOutcome
  /-- Source `alert("Cannot delete rows from a table without a Primary Key or Unique Key defined.")`. -/
  | alertNoKey : DeleteRowOutcome
  /-- Source `conditions.length === 0` — silent return, no statement, no dialog. -/
  | silentNoOp : DeleteRowOutcome
  /-- Source `setDeleteConfirm({sql, isOpen: true})` — confirmation dialog with the statement. -/
  | confirm : String → DeleteRowOutcome
  deriving Repr, DecidableEq

/-- Source `handleDeleteRow` (src/unnamed/part_001 lines 451-501): resolve keys,
build one `"col" = literal` / `"col" IS NULL` condition per key column that
occurs in the result columns, and open the confirmation dialog with the
DELETE statement. Rows are as long as the column list in practice; an
out-of-range index reads as null. -/
def handleDeleteRow (selectedTable : Option String) (results : Option QueryResult)
    (columnDefs : List ColumnDefinition) (row : List JsValue) : DeleteRowOutcome :=
  match selectedTable, results with
  | some st, some res =>
    let parts := jsSplitDot st
    let schema := parts.getD 0 ""
    let table := parts.getD 1 ""
    let pkCols := deleteKeyCols columnDefs
    if pkCols.isEmpty then .alertNoKey
    else
      let colNames := res.columns
      let conditions := pkCols.filterMap fun pk =>
        match colNames.findIdx? (fun c => c == pk.name) with
        | none => none
        | some idx =>
          match row.getD idx JsValue.vnull with
          | .vnull => some ("\"" ++ pk.name ++ "\" IS NULL")
          | v => some ("\"" ++ pk.name ++ "\" = " ++ deleteValueLiteral v)
      if conditions.isEmpty then .silentNoOp
      else
        .confirm ("DELETE FROM \"" ++ schema ++ "\".\"" ++ table ++ "\" WHERE "
          ++ String.intercalate " AND " conditions ++ ";")
  | _, _ => .noTableOrResults

/-! ## Tab store and workspace state (src/unnamed/part_001) -/

/-- The `useState` pieces of the `Workspace` component that the modelled
operations read or write. `globalConnectionId` is the zustand store field
written through `setGlobalConnectionId`. -/
structure WorkspaceState where
  tabs : List WorkspaceTab
  activeTabId : String
  activeConnectionId : Option String
  activeSavedConnectionId : Option String
  activeDbName : Option String
  globalConnectionId : Option String
  isSessionLoaded : Bool
  deriving Repr, DecidableEq

/-- The initial tab (`useState` initializer, nav state absent). -/
def defaultTab : WorkspaceTab :=
  { id := "1", connectionId := none, savedConnectionId := none,
    title := "SQL Query",
    sql := "SELECT * FROM information_schema.tables LIMIT 10;",
    results := none, error := none, isLoading := false,
    selectedTable := none, dbName := none, columnDefs := [] }

/-- Initial workspace state (no navigation state). -/
def initialState : WorkspaceState :=
  { tabs := [defaultTab], activeTabId := "1", activeConnectionId := none,
    activeSavedConnectionId := none, activeDbName := none,
    globalConnectionId := none, isSessionLoaded := false }

/-- Source `updateActiveTab(updates)` specialised: apply `f` to the tab whose id is
`activeId`, leave the others. -/
def updateTabById (tabs : List WorkspaceTab) (activeId : String)
    (f : WorkspaceTab → WorkspaceTab) : List WorkspaceTab :=
  tabs.map fun t => if t.id == activeId then f t else t

/-- Source `closeTab`: no-op on the last tab, else drop the tab and, when the
active tab was closed, activate `newTabs[newTabs.length - 1]` (the source
reads `.id` of that element, so the remaining list is assumed non-empty
there; the model falls back to the old active id on the impossible empty
case). -/
def closeTab (s : WorkspaceState) (id : String) : WorkspaceState :=
  if s.tabs.length = 1 then s
  else
    let newTabs := s.tabs.filter fun t => t.id != id
    let newActive :=
      if s.activeTabId = id then
        match newTabs.getLast? with
        | some t => t.id
        | none => s.activeTabId
      else s.activeTabId
    { s with tabs := newTabs, activeTabId := newActive }

/-- Source `addTab`: append a fresh empty tab carrying the current connection, and
activate it (`newId` stands for the generated `crypto.randomUUID()`). -/
def addTab (s : WorkspaceState) (newId : String) : WorkspaceState :=
  let newTab : WorkspaceTab :=
    { id := newId, connectionId := s.activeConnectionId,
      savedConnectionId := s.activeSavedConnectionId, title := "SQL Query",
      sql := "", results := none, error := none, isLoading := false,
      selectedTable := none, dbName := s.activeDbName, columnDefs := [] }
  { s with tabs := s.tabs ++ [newTab], activeTabId := newId }

/-! ## Query executor pieces (src/unnamed/part_001, `runQuery`) -/

/-- Source `runQuery` title step, once a table name was extracted: replace the
title only when it is still the generic `"SQL Query"` or starts with
`"Table: "`. -/
def computeNewTitle (currentTitle inferredTable : String) : String :=
  if currentTitle = "SQL Query" || jsStartsWith currentTitle "Table: " then
    inferredTable
  else currentTitle

/-- Source `runQuery` table-context inference, after a `FROM schema.table` target
was extracted: fetch columns; on a non-empty list set
`(inferredSelectedTable, inferredColumnDefs)` together; an empty list or a
rejected fetch leaves both at their `(null, [])` defaults (the catch only
warns). -/
def runQueryInference (schema table : String)
    (getColumns : Except String (List ColumnDefinition)) :
    Option String × List ColumnDefinition :=
  match getColumns with
  | .ok cols => if cols.length > 0 then (some (schema ++ "." ++ table), cols) else (none, [])
  | .error _ => (none, [])

/-- Source `handleSelectTable`, first `updateActiveTab` call (before any await):
set the connection, `selectedTable`/`title` to `schema.table`, empty
`columnDefs`, the generated SELECT, and the loading flag. -/
def handleSelectTableImmediate (tab : WorkspaceTab)
    (connectionId savedId schema table : String) (dbName : Option String) :
    WorkspaceTab :=
  let tableKey := schema ++ "." ++ table
  let newSql := "SELECT * FROM " ++ maybeQuoteIdentifier schema ++ "."
    ++ maybeQuoteIdentifier table ++ " LIMIT 100;"
  { tab with
    connectionId := some connectionId, savedConnectionId := some savedId,
    selectedTable := some tableKey, title := tableKey, columnDefs := [],
    sql := newSql, isLoading := true, error := none, results := none,
    dbName := dbName }

/-! ## Session reconciler (src/unnamed/part_001, `loadSession`) -/

/-- First-occurrence deduplication, the iteration order of a JS `Set`. -/
def dedupKeepFirst (l : List String) : List String :=
  l.foldl (fun acc x => if acc.contains x then acc else acc ++ [x]) []

/-- Source `neededSavedIds`: the snapshot's `last_saved_connection_id` followed by
every tab's `saved_connection_id`, deduplicated in insertion order. -/
def neededSavedIds (session : Session) : List String :=
  dedupKeepFirst
    ((match session.last_saved_connection_id with
      | some s => [s]
      | none => []) ++ session.tabs.filterMap (·.saved_connection_id))

/-- Step 3 of the reconciler: sequentially connect each needed saved id,
building `savedToLiveMap`; an id missing from the saved list, or whose
`connect_db` rejects, is logged and simply left out of the map. -/
def buildSavedToLiveMap (session : Session) (savedConns : List SavedConnection)
    (connectDb : DbConfig → Except String String) : List (String × String) :=
  (neededSavedIds session).filterMap fun savedId =>
    match savedConns.find? (fun c => c.id == savedId) with
    | none => none
    | some config =>
      match connectDb config.config with
      | .ok liveId => some (savedId, liveId)
      | .error _ => none

/-- Step 4, per tab: resolve the live id. The source starts from
`let liveId = t.connection_id` (the stored, likely dead, live id), replaces
it by the fresh handle when the tab's `saved_connection_id` is in the map;
a legacy tab (no `saved_connection_id`, non-null `connection_id`) instead
tries `last_saved_connection_id`; in all other cases the stored id stays. -/
def resolveLiveId (session : Session) (savedToLiveMap : List (String × String))
    (t : SessionTab) : Option String :=
  match t.saved_connection_id with
  | some sid =>
    match List.lookup sid savedToLiveMap with
    | some live => some live
    | none => t.connection_id
  | none =>
    match t.connection_id with
    | some _ =>
      match session.last_saved_connection_id with
      | some ls =>
        match List.lookup ls savedToLiveMap with
        | some live => some live
        | none => t.connection_id
      | none => t.connection_id
    | none => none

/-- Step 4, per tab: the rebuilt `WorkspaceTab` — durable fields restored,
every transient field reset. -/
def rebuildTab (session : Session) (savedToLiveMap : List (String × String))
    (t : SessionTab) : WorkspaceTab :=
  { id := t.id, title := t.title, sql := t.sql,
    connectionId := resolveLiveId session savedToLiveMap t,
    savedConnectionId := t.saved_connection_id,
    dbName := t.db_name,
    results := none, error := none, isLoading := false,
    selectedTable := none, columnDefs := [] }

/-- Step 5, main part: the `globalLiveId` found (if any) together with the
state after the branch-local `set...` calls. Prefer the resolved handle of
`last_saved_connection_id`; otherwise the resolved handle of the snapshot's
active tab (or first tab). -/
def restoreGlobalPair (s1 : WorkspaceState) (session : Session)
    (savedToLiveMap : List (String × String)) (savedConns : List SavedConnection) :
    Option String × WorkspaceState :=
  let fallback : Option String × WorkspaceState :=
    let activeTabProto :=
      match (match session.active_tab_id with
             | some a => session.tabs.find? (fun t => t.id == a)
             | none => none) with
      | some t => some t
      | none => session.tabs.head?
    match activeTabProto with
    | some pt =>
      match pt.saved_connection_id with
      | some sid =>
        match List.lookup sid savedToLiveMap with
        | some live =>
          (some live,
           { s1 with
             activeConnectionId := some live,
             globalConnectionId := some live,
             activeSavedConnectionId := some sid })
        | none => (none, s1)
      | none => (none, s1)
    | none => (none, s1)
  match session.last_saved_connection_id with
  | some ls =>
    match List.lookup ls savedToLiveMap with
    | some live =>
      let s2 :=
        { s1 with
          activeSavedConnectionId := some ls,
          globalConnectionId := some live }
      let s3 :=
        match (savedConns.find? (fun c : SavedConnection => c.id == ls)).map
            (fun c : SavedConnection => c.name) with
        | some n => { s2 with activeDbName := some n }
        | none => s2
      (some live, s3)
    | none => fallback
  | none => fallback

/-- Step 5: after the branch above, `if (globalLiveId)` sets it as the
active connection id. -/
def restoreGlobalStep (s1 : WorkspaceState) (session : Session)
    (savedToLiveMap : List (String × String)) (savedConns : List SavedConnection) :
    WorkspaceState :=
  match restoreGlobalPair s1 session savedToLiveMap savedConns with
  | (some live, s4) => { s4 with activeConnectionId := some live }
  | (none, s4) => s4

/-- Step 4 / step 6 of the reconciler: when the snapshot carries tabs,
rebuild them all and restore the active tab id (kept when it names a rebuilt
tab, else the first rebuilt tab); a legacy snapshot with only `last_query`
seeds the default tab's SQL instead. -/
def restoreTabsStep (init : WorkspaceState) (session : Session)
    (savedToLiveMap : List (String × String)) : WorkspaceState :=
  if session.tabs.length > 0 then
    let restoredTabs := session.tabs.map (rebuildTab session savedToLiveMap)
    let newActive :=
      match session.active_tab_id with
      | some a =>
        if restoredTabs.any (fun t => t.id == a) then a
        else match restoredTabs.head? with
             | some t => t.id
             | none => init.activeTabId
      | none =>
        match restoredTabs.head? with
        | some t => t.id
        | none => init.activeTabId
    { init with tabs := restoredTabs, activeTabId := newActive }
  else
    match session.last_query with
    | some q =>
      { init with
        tabs := updateTabById init.tabs init.activeTabId
          (fun t => { t with sql := q }) }
    | none => init

/-- The whole `loadSession` run, as a function of the two gateway fetch
results and the per-config connect outcomes.

JS semantics of the `try/catch/finally` at the end: the `catch` block
(logging, alert) ends in `return`, but the `finally` block still executes
before control leaves the function — so `setIsSessionLoaded(true)` runs on
BOTH the success path and the failure path, despite the source comments
saying the flag is only set when there was no early error return. -/
def loadSessionRun (init : WorkspaceState) (loadResult : Except String Session)
    (connsResult : Except String (List SavedConnection))
    (connectDb : DbConfig → Except String String) : WorkspaceState :=
  match loadResult with
  | .error _ => { init with isSessionLoaded := true }
  | .ok session =>
    match connsResult with
    | .error _ => { init with isSessionLoaded := true }
    | .ok savedConns =>
      let savedToLiveMap := buildSavedToLiveMap session savedConns connectDb
      let s1 := restoreTabsStep init session savedToLiveMap
      let s2 := restoreGlobalStep s1 session savedToLiveMap savedConns
      { s2 with isSessionLoaded := true }

/-- The guard of the auto-save effect (src/unnamed/part_001 lines 206-215):
the debounced `persistSession` is scheduled only when `isSessionLoaded`. -/
def autoSaveEnabled (s : WorkspaceState) : Bool :=
  s.isSessionLoaded

/-! ## Spec-side predicates and supporting lemmas -/

/-- The quoting condition as the spec states it: an uppercase letter, a
character outside `[a-z0-9_]`, a leading digit, or case-insensitive equality
with a reserved word. -/
def claimNeedsQuoting (name : String) : Prop :=
  (∃ c ∈ name.data, Char.ofNat 65 ≤ c ∧ c ≤ Char.ofNat 90)
  ∨ (∃ c ∈ name.data,
      ¬((Char.ofNat 97 ≤ c ∧ c ≤ Char.ofNat 122)
        ∨ (Char.ofNat 48 ≤ c ∧ c ≤ Char.ofNat 57)
        ∨ c = Char.ofNat 95))
  ∨ (∃ c, name.data.head? = some c ∧ Char.ofNat 48 ≤ c ∧ c ≤ Char.ofNat 57)
  ∨ (∃ w ∈ reservedWords, jsToLower name = jsToLower w)

instance (name : String) : Decidable (claimNeedsQuoting name) := by
  unfold claimNeedsQuoting; infer_instance

/-- The spec invariant on the tab store: the tab list is never empty and
`activeTabId` names an existing tab. -/
def tabStoreInv (s : WorkspaceState) : Prop :=
  s.tabs ≠ [] ∧ s.tabs.any (fun t => t.id == s.activeTabId) = true

/-- Tab ids are pairwise distinct (they are `crypto.randomUUID()` values or
ids of a persisted snapshot, themselves produced that way). -/
def tabIdsNodup (s : WorkspaceState) : Prop :=
  (s.tabs.map (fun t => t.id)).Nodup

instance (s : WorkspaceState) : Decidable (tabStoreInv s) := by
  unfold tabStoreInv; infer_instance

instance (s : WorkspaceState) : Decidable (tabIdsNodup s) := by
  unfold tabIdsNodup; infer_instance

theorem reservedWords_lower : ∀ w ∈ reservedWords, jsToLower w = w := by decide

theorem mem_reserved_iff (n : String) :
    n ∈ reservedWords ↔ ∃ w ∈ reservedWords, n = jsToLower w := by
  constructor
  · intro h
    exact ⟨n, h, by rw [reservedWords_lower n h]⟩
  · rintro ⟨w, hw, he⟩
    rw [reservedWords_lower w hw] at he
    rw [he]; exact hw

theorem startsWithDigit_iff (name : String) :
    startsWithDigit name = true
      ↔ ∃ c, name.data.head? = some c
          ∧ Char.ofNat 48 ≤ c ∧ c ≤ Char.ofNat 57 := by
  unfold startsWithDigit
  cases name.data <;> simp

theorem needsQuotes_iff (name : String) :
    needsQuotes name = true ↔ claimNeedsQuoting name := by
  unfold needsQuotes hasCaps hasSpecialChars
  simp only [Bool.or_eq_true, List.any_eq_true, decide_eq_true_eq,
    Bool.not_eq_true', Bool.or_eq_false_iff, decide_eq_false_iff_not,
    startsWithDigit_iff]
  unfold claimNeedsQuoting
  constructor
  · rintro (((h | h) | h) | h)
    · exact Or.inl h
    · refine Or.inr (Or.inl ?_)
      obtain ⟨c, hc, h1⟩ := h
      exact ⟨c, hc, by tauto⟩
    · exact Or.inr (Or.inr (Or.inl h))
    · exact Or.inr (Or.inr (Or.inr ((mem_reserved_iff _).mp h)))
  · rintro (h | h | h | h)
    · exact Or.inl (Or.inl (Or.inl h))
    · refine Or.inl (Or.inl (Or.inr ?_))
      obtain ⟨c, hc, hn⟩ := h
      exact ⟨c, hc, by tauto⟩
    · exact Or.inl (Or.inr h)
    · exact Or.inr ((mem_reserved_iff _).mpr h)

/-! ## Claim theorems -/

/-- Claim C7: for every name containing an uppercase letter, a character
outside `[a-z0-9_]`, a leading digit, or equal (case-insensitively) to a
reserved word, `maybeQuoteIdentifier` returns the name wrapped in double
quotes, and for every other name it returns the name unchanged; concretely
it leaves `orders`, `user_id`, `_temp` unchanged and quotes `User`,
`select`, `2fa`, `order by`. -/
theorem c7_maybeQuoteIdentifier_spec :
    (∀ name : String,
      (claimNeedsQuoting name → maybeQuoteIdentifier name = "\"" ++ name ++ "\"")
      ∧ (¬claimNeedsQuoting name → maybeQuoteIdentifier name = name))
    ∧ maybeQuoteIdentifier "orders" = "orders"
    ∧ maybeQuoteIdentifier "user_id" = "user_id"
    ∧ maybeQuoteIdentifier "_temp" = "_temp"
    ∧ maybeQuoteIdentifier "User" = "\"User\""
    ∧ maybeQuoteIdentifier "select" = "\"select\""
    ∧ maybeQuoteIdentifier "2fa" = "\"2fa\""
    ∧ maybeQuoteIdentifier "order by" = "\"order by\"" := by
  refine ⟨fun name => ⟨fun h => ?_, fun h => ?_⟩, ?_, ?_, ?_, ?_, ?_, ?_, ?_⟩
  · rw [maybeQuoteIdentifier, if_pos ((needsQuotes_iff name).mpr h)]
  · rw [maybeQuoteIdentifier,
      if_neg (fun hq => h ((needsQuotes_iff name).mp hq))]
  all_goals decide

/-- Witness for C7 at concrete inputs. -/
theorem c7_maybeQuoteIdentifier_spec_witness :
    claimNeedsQuoting "User" ∧ maybeQuoteIdentifier "User" = "\"User\""
      ∧ ¬claimNeedsQuoting "orders" ∧ maybeQuoteIdentifier "orders" = "orders" :=
  ⟨by decide,
   (c7_maybeQuoteIdentifier_spec.1 "User").1 (by decide),
   by decide,
   (c7_maybeQuoteIdentifier_spec.1 "orders").2 (by decide)⟩

/-- Claim C5: row delete on `public.users` with
`columnDefs = [{name:"id", is_pk:true}, {name:"email", is_pk:false}]`,
result columns `["id","email"]` and row `[1, "a@b.com"]` produces exactly
`DELETE FROM "public"."users" WHERE "id" = 1;` — the numeric key value
unquoted and no other column in the WHERE clause. -/
theorem c5_delete_pk_only :
    handleDeleteRow (some "public.users")
        (some { columns := ["id", "email"], rows := [] })
        [{ name := "id", data_type := "integer", is_pk := true, is_unique := false },
         { name := "email", data_type := "text", is_pk := false, is_unique := false }]
        [JsValue.vnum 1, JsValue.vstr "a@b.com"]
      = .confirm "DELETE FROM \"public\".\"users\" WHERE \"id\" = 1;" := by
  decide

/-- Claim C9: when the gateway `load_connections` call rejects,
`loadConnections` swallows the failure (it only logs) and leaves the entire
connections state unchanged — atomicity on error. The model is a total
function, mirroring that the rejected fetch never escapes the `catch`. -/
theorem c9_loadConnections_error_is_noop :
    ∀ (state : List ConnectionNode) (e : String),
      loadConnections state (Except.error e) = state := by
  intro state e
  rfl

/-- If every key column's name is absent from `cols`, the per-key condition
builder yields nothing. -/
theorem conditions_nil_of_not_mem (cols : List String)
    (pkCols : List ColumnDefinition) (f : ColumnDefinition → Nat → Option String)
    (h : ∀ pk ∈ pkCols, pk.name ∉ cols) :
    (pkCols.filterMap fun pk =>
      match cols.findIdx? (fun c => c == pk.name) with
      | none => none
      | some idx => f pk idx) = [] := by
  rw [List.filterMap_eq_nil_iff]
  intro pk hpk
  have hfind : cols.findIdx? (fun c => c == pk.name) = none := by
    rw [List.findIdx?_eq_none_iff]
    intro x hx
    have hne : x ≠ pk.name := fun he => h pk hpk (he ▸ hx)
    simp [hne]
  rw [hfind]

/-- Claim C10: row delete builds WHERE conditions only for identifying
columns whose names appear in the current result columns; when none of the
resolved key columns occurs there, `handleDeleteRow` silently returns —
no statement, no confirmation dialog, no error — even though the table has
a primary key or unique key. -/
theorem c10_delete_silent_when_keys_absent :
    ∀ (st : String) (res : QueryResult) (columnDefs : List ColumnDefinition)
      (row : List JsValue),
      deleteKeyCols columnDefs ≠ [] →
      (∀ c ∈ deleteKeyCols columnDefs, c.name ∉ res.columns) →
      handleDeleteRow (some st) (some res) columnDefs row
        = DeleteRowOutcome.silentNoOp := by
  intro st res cds row hne hnot
  have hpk : (deleteKeyCols cds).isEmpty = false := by
    rcases h : deleteKeyCols cds with _ | ⟨a, l⟩
    · exact absurd h hne
    · rfl
  have hcond := conditions_nil_of_not_mem res.columns (deleteKeyCols cds)
    (fun pk idx =>
      match row.getD idx JsValue.vnull with
      | .vnull => some ("\"" ++ pk.name ++ "\" IS NULL")
      | v => some ("\"" ++ pk.name ++ "\" = " ++ deleteValueLiteral v)) hnot
  simp only [handleDeleteRow, hpk, Bool.false_eq_true, if_false, hcond,
    List.isEmpty_nil, if_true]

/-- Witness for C10: a table whose only primary key `id` is missing from a
projection that selected only `email`. -/
theorem c10_delete_silent_when_keys_absent_witness :
    handleDeleteRow (some "public.users")
        (some { columns := ["email"], rows := [] })
        [{ name := "id", data_type := "integer", is_pk := true, is_unique := false },
         { name := "email", data_type := "text", is_pk := false, is_unique := false }]
        [JsValue.vstr "a@b.com"]
      = DeleteRowOutcome.silentNoOp :=
  c10_delete_silent_when_keys_absent "public.users"
    { columns := ["email"], rows := [] }
    [{ name := "id", data_type := "integer", is_pk := true, is_unique := false },
     { name := "email", data_type := "text", is_pk := false, is_unique := false }]
    [JsValue.vstr "a@b.com"] (by decide) (by decide)

/-- Counterexample to claim C3: on a table with neither primary-key nor
unique columns, cell update falls back to the full row as identifying
condition while row delete refuses with an alert and produces no statement
— the policies are not identical in the no-key case. -/
theorem c3_counterexample_policies_differ :
    filteredIdentifiers
        [{ name := "a", data_type := "text", is_pk := false, is_unique := false },
         { name := "b", data_type := "text", is_pk := false, is_unique := false }]
        [("a", some "1", "text"), ("b", some "2", "text")]
      = [("a", some "1", "text"), ("b", some "2", "text")]
    ∧ handleDeleteRow (some "public.t")
        (some { columns := ["a", "b"], rows := [] })
        [{ name := "a", data_type := "text", is_pk := false, is_unique := false },
         { name := "b", data_type := "text", is_pk := false, is_unique := false }]
        [JsValue.vnum 1, JsValue.vnum 2]
      = DeleteRowOutcome.alertNoKey := by
  constructor <;> rfl

/-- Claim C3 as amended: the identifying-column resolution is identical for
update and delete on the primary-key and unique fallback steps (the update
key-name set is exactly the names of the delete key columns); when both
steps come up empty, update uses all columns of the row while delete
refuses (alert, no statement). -/
theorem c3_amended_key_policy :
    ∀ (cds : List ColumnDefinition),
      updateKeyNames cds = (deleteKeyCols cds).map (fun c => c.name)
      ∧ (deleteKeyCols cds = [] →
          (∀ rowIds, filteredIdentifiers cds rowIds = rowIds)
          ∧ (∀ st res row,
              handleDeleteRow (some st) (some res) cds row
                = DeleteRowOutcome.alertNoKey)) := by
  intro cds
  have hmain : updateKeyNames cds = (deleteKeyCols cds).map (fun c => c.name) := by
    rcases h : cds.filter (fun c => c.is_pk) with _ | ⟨a, l⟩ <;>
      simp [updateKeyNames, deleteKeyCols, h]
  refine ⟨hmain, fun hnil => ⟨fun rowIds => ?_, fun st res row => ?_⟩⟩
  · have hempty : updateKeyNames cds = [] := by rw [hmain, hnil]; rfl
    simp [filteredIdentifiers, hempty]
  · simp [handleDeleteRow, hnil]

/-- Witness for C3 amended: a two-column table with no keys at all. -/
theorem c3_amended_key_policy_witness :
    filteredIdentifiers
        [{ name := "a", data_type := "text", is_pk := false, is_unique := false }]
        [("a", some "1", "text")]
      = [("a", some "1", "text")]
    ∧ handleDeleteRow (some "public.t")
        (some { columns := ["a"], rows := [] })
        [{ name := "a", data_type := "text", is_pk := false, is_unique := false }]
        [JsValue.vnum 1]
      = DeleteRowOutcome.alertNoKey :=
  ⟨((c3_amended_key_policy
      [{ name := "a", data_type := "text", is_pk := false, is_unique := false }]).2
      (by decide)).1 [("a", some "1", "text")],
   ((c3_amended_key_policy
      [{ name := "a", data_type := "text", is_pk := false, is_unique := false }]).2
      (by decide)).2 "public.t" { columns := ["a"], rows := [] } [JsValue.vnum 1]⟩

/-- Counterexample to claim C4: the first `updateActiveTab` of
`handleSelectTable` — issued before the column fetch even starts — already
puts the tab into a state with a non-null `selectedTable` and empty
`columnDefs`, an observable violation of the claimed invariant. -/
theorem c4_counterexample_selectTable_immediate :
    (handleSelectTableImmediate defaultTab "live1" "s1" "public" "users" none).selectedTable
      = some "public.users"
    ∧ (handleSelectTableImmediate defaultTab "live1" "s1" "public" "users" none).columnDefs
      = [] := by
  constructor <;> rfl

/-- Claim C4 as amended: the coupling holds for the query executor and the
reconciler — `runQuery` inference sets `selectedTable` and `columnDefs`
together exactly when the column fetch succeeds with a non-empty list, and
rebuilt tabs carry `selectedTable = null`, `columnDefs = []` — but
`handleSelectTable` sets a non-null `selectedTable` with empty `columnDefs`
immediately, before its fetch resolves. -/
theorem c4_amended_inference_coupling :
    (∀ (schema table : String) (r : Except String (List ColumnDefinition)),
      ((runQueryInference schema table r).1 ≠ none
        ↔ (runQueryInference schema table r).2 ≠ [])
      ∧ (∀ cols, r = Except.ok cols → cols ≠ [] →
          runQueryInference schema table r = (some (schema ++ "." ++ table), cols)))
    ∧ (∀ (sess : Session) (savedToLiveMap : List (String × String)) (t : SessionTab),
        (rebuildTab sess savedToLiveMap t).selectedTable = none
        ∧ (rebuildTab sess savedToLiveMap t).columnDefs = [])
    ∧ (∀ (tab : WorkspaceTab) (c s sch tbl : String) (d : Option String),
        (handleSelectTableImmediate tab c s sch tbl d).selectedTable
          = some (sch ++ "." ++ tbl)
        ∧ (handleSelectTableImmediate tab c s sch tbl d).columnDefs = []) := by
  refine ⟨fun schema table r => ⟨?_, ?_⟩, fun sess m t => ⟨rfl, rfl⟩,
    fun tab c s sch tbl d => ⟨rfl, rfl⟩⟩
  · rcases r with e | cols
    · simp [runQueryInference]
    · rcases cols with _ | ⟨a, l⟩ <;> simp [runQueryInference]
  · rintro cols rfl hne
    rcases cols with _ | ⟨a, l⟩
    · exact absurd rfl hne
    · simp [runQueryInference]

/-- Witness for C4 amended: a successful one-column fetch sets both fields
together. -/
theorem c4_amended_inference_coupling_witness :
    runQueryInference "public" "users"
        (Except.ok [{ name := "id", data_type := "integer",
                      is_pk := true, is_unique := false }])
      = (some "public.users",
         [{ name := "id", data_type := "integer",
            is_pk := true, is_unique := false }]) :=
  (c4_amended_inference_coupling.1 "public" "users"
      (Except.ok [{ name := "id", data_type := "integer",
                    is_pk := true, is_unique := false }])).2
    [{ name := "id", data_type := "integer", is_pk := true, is_unique := false }]
    rfl (by decide)

/-- Counterexample to claim C6: `"orders"` is itself a title produced by a
previous inference (first conjunct: inference over the generic default
yields it), yet a later inference extracting `"users"` leaves it unchanged
(second conjunct) — a previously inferred title is NOT replaced, against the
claimed if-and-only-if. -/
theorem c6_counterexample_inferred_title_kept :
    computeNewTitle "SQL Query" "orders" = "orders"
    ∧ computeNewTitle "orders" "users" = "orders"
    ∧ "orders" ≠ "users" := by
  refine ⟨rfl, rfl, by decide⟩

/-- Claim C6 as amended: after a successful query execution that infers a
table name, the title is replaced with the bare table name exactly when the
current title is the generic default `"SQL Query"` or starts with
`"Table: "`; every other title — bare table names set by a previous
inference, `schema.table` titles from table selection, and any user-set
title — is preserved unchanged. -/
theorem c6_amended_title_rule :
    ∀ (cur tbl : String),
      ((cur = "SQL Query" ∨ jsStartsWith cur "Table: " = true) →
        computeNewTitle cur tbl = tbl)
      ∧ (cur ≠ "SQL Query" → jsStartsWith cur "Table: " = false →
        computeNewTitle cur tbl = cur) := by
  intro cur tbl
  constructor
  · rintro (h | h) <;> simp [computeNewTitle, h]
  · intro h1 h2
    simp [computeNewTitle, h1, h2]

/-- Witness for C6 amended at concrete titles. -/
theorem c6_amended_title_rule_witness :
    computeNewTitle "SQL Query" "users" = "users"
    ∧ computeNewTitle "orders" "users" = "orders" :=
  ⟨(c6_amended_title_rule "SQL Query" "users").1 (Or.inl rfl),
   (c6_amended_title_rule "orders" "users").2 (by decide) (by decide)⟩

/-- The global-connection restore (step 5) only touches connection-related
fields: the tab list, the active tab id and the loaded flag pass through. -/
theorem restoreGlobalPair_preserves (s1 : WorkspaceState) (sess : Session)
    (savedToLiveMap : List (String × String)) (conns : List SavedConnection) :
    (restoreGlobalPair s1 sess savedToLiveMap conns).2.tabs = s1.tabs
    ∧ (restoreGlobalPair s1 sess savedToLiveMap conns).2.activeTabId
      = s1.activeTabId
    ∧ (restoreGlobalPair s1 sess savedToLiveMap conns).2.isSessionLoaded
      = s1.isSessionLoaded := by
  refine ⟨?_, ?_, ?_⟩ <;>
  · simp only [restoreGlobalPair]
    repeat' split
    all_goals rfl

theorem restoreGlobalStep_preserves (s1 : WorkspaceState) (sess : Session)
    (savedToLiveMap : List (String × String)) (conns : List SavedConnection) :
    (restoreGlobalStep s1 sess savedToLiveMap conns).tabs = s1.tabs
    ∧ (restoreGlobalStep s1 sess savedToLiveMap conns).activeTabId = s1.activeTabId
    ∧ (restoreGlobalStep s1 sess savedToLiveMap conns).isSessionLoaded
      = s1.isSessionLoaded := by
  have hp := restoreGlobalPair_preserves s1 sess savedToLiveMap conns
  unfold restoreGlobalStep
  rcases h : restoreGlobalPair s1 sess savedToLiveMap conns with ⟨_ | live, s4⟩ <;>
    rw [h] at hp <;> exact hp

/-- Claim C1 [refuted by the code — code bug]: the `catch` of `loadSession`
ends in `return` and the source comments state that `isSessionLoaded` is
then not set; but the `finally` block still runs after that `return`, so THE
FLAG IS SET TO TRUE on every failing startup load (`load_session` rejecting,
or `load_connections` rejecting), the rest of the state being left as it
was; the auto-save effect gate is then open and the debounced persister can
overwrite the on-disk snapshot with the default in-memory state. -/
theorem c1_bug_finally_marks_loaded :
    ∀ (init : WorkspaceState) (e : String) (sess : Session)
      (connsResult : Except String (List SavedConnection))
      (connectDb : DbConfig → Except String String),
      loadSessionRun init (Except.error e) connsResult connectDb
        = { init with isSessionLoaded := true }
      ∧ loadSessionRun init (Except.ok sess) (Except.error e) connectDb
        = { init with isSessionLoaded := true }
      ∧ autoSaveEnabled (loadSessionRun init (Except.error e) connsResult connectDb)
        = true := by
  intro init e sess connsResult connectDb
  exact ⟨rfl, rfl, rfl⟩

/-- Counterexample to claim C2: a persisted tab addressed by saved identity
`s1` whose reconnect fails (the gateway rejects `connect_db`) is rebuilt
with `connectionId = some "dead"` — the dead persisted live handle — not
`null` as claimed. -/
theorem c2_counterexample_dead_handle_kept :
    (rebuildTab
        { last_connection_id := none, last_saved_connection_id := none,
          last_table := none, last_query := none,
          tabs := [{ id := "t1", title := "T", sql := "SELECT 1",
                     connection_id := some "dead",
                     saved_connection_id := some "s1", db_name := none }],
          active_tab_id := some "t1" }
        (buildSavedToLiveMap
          { last_connection_id := none, last_saved_connection_id := none,
            last_table := none, last_query := none,
            tabs := [{ id := "t1", title := "T", sql := "SELECT 1",
                       connection_id := some "dead",
                       saved_connection_id := some "s1", db_name := none }],
            active_tab_id := some "t1" }
          [{ id := "s1", name := "db",
             config := { host := "h", port := 5432, user := "u", dbname := "d" } }]
          (fun _ => Except.error "connection refused"))
        { id := "t1", title := "T", sql := "SELECT 1",
          connection_id := some "dead", saved_connection_id := some "s1",
          db_name := none }).connectionId
      = some "dead"
    ∧ (some "dead" : Option String) ≠ none := by
  exact ⟨rfl, by decide⟩

/-- Claim C2 as amended: when a tab's saved identity does not resolve to a
fresh handle (and, for legacy tabs, `last_saved_connection_id` does not
either), the rebuilt tab KEEPS the persisted `connection_id` — the stale
dead handle — and is `null` only when the persisted value was itself
`null`; transient fields are reset and reconciliation still completes for
the remaining tabs (the rebuilt list has one tab per persisted tab and the
store is marked loaded). -/
theorem c2_amended_stale_handle :
    (∀ (sess : Session) (savedToLiveMap : List (String × String)) (t : SessionTab),
      (∀ sid, t.saved_connection_id = some sid →
        List.lookup sid savedToLiveMap = none) →
      (t.saved_connection_id = none →
        ∀ ls, sess.last_saved_connection_id = some ls →
          List.lookup ls savedToLiveMap = none) →
      (rebuildTab sess savedToLiveMap t).connectionId = t.connection_id
      ∧ (rebuildTab sess savedToLiveMap t).results = none
      ∧ (rebuildTab sess savedToLiveMap t).isLoading = false)
    ∧ (∀ (init : WorkspaceState) (sess : Session) (conns : List SavedConnection)
        (connectDb : DbConfig → Except String String),
        sess.tabs ≠ [] →
        (loadSessionRun init (Except.ok sess) (Except.ok conns) connectDb).tabs.length
          = sess.tabs.length
        ∧ (loadSessionRun init (Except.ok sess) (Except.ok conns)
            connectDb).isSessionLoaded = true) := by
  constructor
  · intro sess savedToLiveMap t h1 h2
    refine ⟨?_, rfl, rfl⟩
    show resolveLiveId sess savedToLiveMap t = t.connection_id
    rcases hs : t.saved_connection_id with _ | sid
    · rcases hc : t.connection_id with _ | cid
      · simp [resolveLiveId, hs, hc]
      · rcases hl : sess.last_saved_connection_id with _ | ls
        · simp [resolveLiveId, hs, hc, hl]
        · simp [resolveLiveId, hs, hc, hl, h2 hs ls hl]
    · simp [resolveLiveId, hs, h1 sid hs]
  · intro init sess conns connectDb hne
    have hlen : sess.tabs.length > 0 := List.length_pos.mpr hne
    constructor
    · show ({ restoreGlobalStep
          (restoreTabsStep init sess (buildSavedToLiveMap sess conns connectDb))
          sess (buildSavedToLiveMap sess conns connectDb) conns
          with isSessionLoaded := true } : WorkspaceState).tabs.length
        = sess.tabs.length
      rw [show ({ restoreGlobalStep
          (restoreTabsStep init sess (buildSavedToLiveMap sess conns connectDb))
          sess (buildSavedToLiveMap sess conns connectDb) conns
          with isSessionLoaded := true } : WorkspaceState).tabs
        = (restoreGlobalStep
            (restoreTabsStep init sess (buildSavedToLiveMap sess conns connectDb))
            sess (buildSavedToLiveMap sess conns connectDb) conns).tabs from rfl,
        (restoreGlobalStep_preserves _ _ _ _).1]
      simp only [restoreTabsStep, if_pos hlen]
      exact List.length_map _ _
    · rfl

/-- Witness for C2 amended: the concrete failing-reconnect tab. -/
theorem c2_amended_stale_handle_witness :
    (rebuildTab
        { last_connection_id := none, last_saved_connection_id := none,
          last_table := none, last_query := none, tabs := [],
          active_tab_id := none }
        []
        { id := "t1", title := "T", sql := "SELECT 1",
          connection_id := some "dead", saved_connection_id := some "s1",
          db_name := none }).connectionId
      = some "dead" :=
  (c2_amended_stale_handle.1
    { last_connection_id := none, last_saved_connection_id := none,
      last_table := none, last_query := none, tabs := [],
      active_tab_id := none }
    []
    { id := "t1", title := "T", sql := "SELECT 1",
      connection_id := some "dead", saved_connection_id := some "s1",
      db_name := none }
    (fun _ _ => rfl) (fun h => by simp at h)).1

/-- Rebuilding keeps each tab's id, so the rebuilt id list is the persisted
id list. -/
theorem restored_ids (sess : Session) (savedToLiveMap : List (String × String)) :
    (sess.tabs.map (rebuildTab sess savedToLiveMap)).map (fun t => t.id)
      = sess.tabs.map (fun t => t.id) := by
  rw [List.map_map]; rfl

/-- The reconciler's `restoredTabs.find(...)`-style check: some rebuilt tab
has id `a` exactly when `a` is among the persisted tab ids. -/
theorem restored_any_iff (sess : Session) (savedToLiveMap : List (String × String))
    (a : String) :
    ((sess.tabs.map (rebuildTab sess savedToLiveMap)).any (fun t => t.id == a) = true)
      ↔ a ∈ sess.tabs.map (fun t => t.id) := by
  rw [List.any_eq_true, ← restored_ids sess savedToLiveMap, List.mem_map]
  constructor
  · rintro ⟨t, ht, hbeq⟩
    exact ⟨t, ht, beq_iff_eq.mp hbeq⟩
  · rintro ⟨t, ht, hid⟩
    exact ⟨t, ht, beq_iff_eq.mpr hid⟩

/-- Claim C8: the Tab Store never becomes empty and `activeTabId` always
names an existing tab — closing the last tab is a no-op, `closeTab`
preserves the invariant (given distinct tab ids), and reconciliation over a
non-empty snapshot re-establishes it, restoring `active_tab_id` exactly
when it names a rebuilt tab and defaulting to the first rebuilt tab
otherwise. -/
theorem c8_tab_store_invariants :
    (∀ (s : WorkspaceState) (id : String), s.tabs.length = 1 → closeTab s id = s)
    ∧ (∀ (s : WorkspaceState) (id : String),
        tabStoreInv s → tabIdsNodup s →
        tabStoreInv (closeTab s id) ∧ tabIdsNodup (closeTab s id))
    ∧ (∀ (init : WorkspaceState) (sess : Session) (conns : List SavedConnection)
        (connectDb : DbConfig → Except String String) (t0 : SessionTab)
        (rest : List SessionTab),
        sess.tabs = t0 :: rest →
        tabStoreInv (loadSessionRun init (Except.ok sess) (Except.ok conns) connectDb)
        ∧ (∀ a, sess.active_tab_id = some a →
            (a ∈ sess.tabs.map (fun t => t.id) →
              (loadSessionRun init (Except.ok sess) (Except.ok conns)
                connectDb).activeTabId = a)
            ∧ (a ∉ sess.tabs.map (fun t => t.id) →
              (loadSessionRun init (Except.ok sess) (Except.ok conns)
                connectDb).activeTabId = t0.id))) := by
  refine ⟨fun s id hlen => by simp [closeTab, hlen], fun s id hinv hnodup => ?_,
    fun init sess conns connectDb t0 rest htabs => ?_⟩
  · by_cases hlen : s.tabs.length = 1
    · simpa [closeTab, hlen] using ⟨hinv, hnodup⟩
    · obtain ⟨hne, hany⟩ := hinv
      obtain ⟨ta, hta, htaid⟩ := List.any_eq_true.mp hany
      have htaid : ta.id = s.activeTabId := beq_iff_eq.mp htaid
      have hnodup' :
          ((s.tabs.filter (fun t => t.id != id)).map (fun t => t.id)).Nodup :=
        hnodup.sublist ((List.filter_sublist _).map _)
      by_cases hact : s.activeTabId = id
      · obtain ⟨a, b, l, hts⟩ : ∃ a b l, s.tabs = a :: b :: l := by
          rcases hts : s.tabs with _ | ⟨a, _ | ⟨b, l⟩⟩
          · exact absurd hts hne
          · exact absurd (by rw [hts]; rfl) hlen
          · exact ⟨a, b, l, rfl⟩
        have hab : a.id ≠ b.id := by
          intro hEq
          have hnd := hnodup
          unfold tabIdsNodup at hnd
          rw [hts] at hnd
          simp only [List.map_cons, List.nodup_cons, List.mem_cons] at hnd
          exact hnd.1 (Or.inl hEq)
        have hone : ∃ t ∈ s.tabs, (t.id != id) = true := by
          by_cases ha : a.id = id
          · refine ⟨b, by rw [hts]; exact List.mem_cons_of_mem _ (List.mem_cons_self _ _), ?_⟩
            exact bne_iff_ne.mpr fun hb => hab (ha.trans hb.symm)
          · exact ⟨a, by rw [hts]; exact List.mem_cons_self _ _, bne_iff_ne.mpr ha⟩
        obtain ⟨tw, htw, htwne⟩ := hone
        have hfne : s.tabs.filter (fun t => t.id != id) ≠ [] :=
          List.ne_nil_of_mem (List.mem_filter.mpr ⟨htw, htwne⟩)
        have hlast := List.getLast?_eq_getLast_of_ne_nil hfne
        refine ⟨⟨?_, ?_⟩, ?_⟩
        · simpa [closeTab, hlen] using hfne
        · simp only [tabStoreInv, closeTab, if_neg hlen, if_pos hact, hlast]
          exact List.any_eq_true.mpr
            ⟨(s.tabs.filter (fun t => t.id != id)).getLast hfne,
             List.getLast_mem hfne, beq_iff_eq.mpr rfl⟩
        · simpa [tabIdsNodup, closeTab, hlen] using hnodup'
      · have htane : (ta.id != id) = true := bne_iff_ne.mpr (htaid ▸ hact)
        have hmemf : ta ∈ s.tabs.filter (fun t => t.id != id) :=
          List.mem_filter.mpr ⟨hta, htane⟩
        refine ⟨⟨?_, ?_⟩, ?_⟩
        · simpa [closeTab, hlen] using List.ne_nil_of_mem hmemf
        · simp only [tabStoreInv, closeTab, if_neg hlen, if_neg hact]
          exact List.any_eq_true.mpr ⟨ta, hmemf, beq_iff_eq.mpr htaid⟩
        · simpa [tabIdsNodup, closeTab, hlen] using hnodup'
  · obtain ⟨lc, lsc, lt, lq, stabs, sact⟩ := sess
    simp only at htabs
    subst htabs
    have hLtabs :
        (loadSessionRun init (Except.ok ⟨lc, lsc, lt, lq, t0 :: rest, sact⟩)
            (Except.ok conns) connectDb).tabs
          = (restoreTabsStep init ⟨lc, lsc, lt, lq, t0 :: rest, sact⟩
              (buildSavedToLiveMap ⟨lc, lsc, lt, lq, t0 :: rest, sact⟩ conns
                connectDb)).tabs :=
      (restoreGlobalStep_preserves _ _ _ _).1
    have hLact :
        (loadSessionRun init (Except.ok ⟨lc, lsc, lt, lq, t0 :: rest, sact⟩)
            (Except.ok conns) connectDb).activeTabId
          = (restoreTabsStep init ⟨lc, lsc, lt, lq, t0 :: rest, sact⟩
              (buildSavedToLiveMap ⟨lc, lsc, lt, lq, t0 :: rest, sact⟩ conns
                connectDb)).activeTabId :=
      (restoreGlobalStep_preserves _ _ _ _).2.1
    rcases sact with _ | a
    · refine ⟨⟨?_, ?_⟩, ?_⟩
      · rw [hLtabs]
        simp [restoreTabsStep]
      · rw [hLtabs, hLact]
        simp [restoreTabsStep, rebuildTab]
      · intro a ha
        simp at ha
    · by_cases hmem : a ∈ (t0 :: rest).map (fun t => t.id)
      · have hanyt :
            ((t0 :: rest).map (rebuildTab ⟨lc, lsc, lt, lq, t0 :: rest, some a⟩
              (buildSavedToLiveMap ⟨lc, lsc, lt, lq, t0 :: rest, some a⟩ conns
                connectDb))).any (fun t => t.id == a) = true :=
          (restored_any_iff ⟨lc, lsc, lt, lq, t0 :: rest, some a⟩
            (buildSavedToLiveMap ⟨lc, lsc, lt, lq, t0 :: rest, some a⟩ conns
              connectDb) a).mpr hmem
        refine ⟨⟨?_, ?_⟩, ?_⟩
        · rw [hLtabs]; simp [restoreTabsStep]
        · rw [hLtabs, hLact]
          simp only [restoreTabsStep]
          rw [if_pos (show (t0 :: rest).length > 0 from Nat.succ_pos _)]
          rw [hanyt]
          simpa using hanyt
        · intro x hx
          obtain rfl : a = x := by simpa using hx
          refine ⟨fun _ => ?_, fun hnx => absurd hmem hnx⟩
          rw [hLact]
          simp only [restoreTabsStep]
          rw [if_pos (show (t0 :: rest).length > 0 from Nat.succ_pos _)]
          rw [hanyt]
          simp
      · have hanyf :
            ((t0 :: rest).map (rebuildTab ⟨lc, lsc, lt, lq, t0 :: rest, some a⟩
              (buildSavedToLiveMap ⟨lc, lsc, lt, lq, t0 :: rest, some a⟩ conns
                connectDb))).any (fun t => t.id == a) = false := by
          cases h : ((t0 :: rest).map (rebuildTab ⟨lc, lsc, lt, lq, t0 :: rest, some a⟩
              (buildSavedToLiveMap ⟨lc, lsc, lt, lq, t0 :: rest, some a⟩ conns
                connectDb))).any (fun t => t.id == a)
          · rfl
          · exact absurd ((restored_any_iff _ _ _).mp h) hmem
        refine ⟨⟨?_, ?_⟩, ?_⟩
        · rw [hLtabs]; simp [restoreTabsStep]
        · rw [hLtabs, hLact]
          simp only [restoreTabsStep]
          rw [if_pos (show (t0 :: rest).length > 0 from Nat.succ_pos _)]
          rw [hanyf]
          simp [rebuildTab]
        · intro x hx
          obtain rfl : a = x := by simpa using hx
          refine ⟨fun hxmem => absurd hxmem hmem, fun _ => ?_⟩
          rw [hLact]
          simp only [restoreTabsStep]
          rw [if_pos (show (t0 :: rest).length > 0 from Nat.succ_pos _)]
          rw [hanyf]
          simp [rebuildTab]

/-- Witness for C8 at concrete states: closing the active of two tabs keeps
the invariant, and a concrete reconciliation restores the persisted active
tab. -/
theorem c8_tab_store_invariants_witness :
    closeTab
      { tabs := [defaultTab], activeTabId := "1", activeConnectionId := none,
        activeSavedConnectionId := none, activeDbName := none,
        globalConnectionId := none, isSessionLoaded := true } "1"
      = { tabs := [defaultTab], activeTabId := "1", activeConnectionId := none,
          activeSavedConnectionId := none, activeDbName := none,
          globalConnectionId := none, isSessionLoaded := true }
    ∧ tabStoreInv (closeTab
        { tabs := [defaultTab, { defaultTab with id := "2" }],
          activeTabId := "1", activeConnectionId := none,
          activeSavedConnectionId := none, activeDbName := none,
          globalConnectionId := none, isSessionLoaded := true } "1")
    ∧ tabStoreInv (loadSessionRun initialState
        (Except.ok
          { last_connection_id := none, last_saved_connection_id := none,
            last_table := none, last_query := none,
            tabs := [{ id := "t1", title := "T", sql := "SELECT 1",
                       connection_id := none, saved_connection_id := none,
                       db_name := none }],
            active_tab_id := some "t1" })
        (Except.ok []) (fun _ => Except.error "down")) :=
  ⟨c8_tab_store_invariants.1 _ "1" (by decide),
   (c8_tab_store_invariants.2.1 _ "1" (by decide) (by decide)).1,
   (c8_tab_store_invariants.2.2 initialState _ [] (fun _ => Except.error "down")
      { id := "t1", title := "T", sql := "SELECT 1", connection_id := none,
        saved_connection_id := none, db_name := none } [] rfl).1⟩

end Pgmac
